import Mathlib

/-!
Verification of `tableauserverclient/models/project_item.py`
(repository fenimore/server-client-python).

We shallowly embed the `ProjectItem` class and its XML codec into Lean:

* XML elements become a nested inductive (`XmlElement`) with a tag, an
  attribute list and a list of child elements; `ElementTree.get` becomes
  association-list lookup.
* The mutable `ProjectItem` object becomes a record; mutating methods
  become functions returning an updated record.
* Python exceptions become an error type `TSCError`; fallible operations
  return `Except TSCError _` or, for the attribute assignment whose
  exception must leave the object observable, a pair of the (possibly
  untouched) object and an optional error.
* The deferred permission providers (zero-argument callables stored in
  `_permissions` / `_default_*_permissions`) become `Option (Unit → π)`
  fields, for an arbitrary result type `π`.

Two pieces of code this file depends on are not under `src/` and are
modelled from the spec where noted: the `property_is_enum` decorator
(from `tableauserverclient.models.property_decorators`) and
`defusedxml.ElementTree.fromstring`.
-/

/-- An XML element: a (namespace-resolved) tag, its attributes in document
order, and its immediate children in document order.  Mirrors the
`xml.etree.ElementTree.Element` interface used by `project_item.py`. -/
inductive XmlElement : Type where
  | mk (tag : String) (attrs : List (String × String)) (children : List XmlElement)
deriving Repr

def XmlElement.tag : XmlElement → String
  | .mk t _ _ => t

def XmlElement.attrs : XmlElement → List (String × String)
  | .mk _ a _ => a

def XmlElement.children : XmlElement → List XmlElement
  | .mk _ _ c => c

/-- `element.get(key, None)`: the value of attribute `key`, `none` when the
attribute is absent (XML attributes are unique per element; we return the
first binding). -/
def XmlElement.get (e : XmlElement) (key : String) : Option String :=
  match e.attrs.find? (fun p => p.1 == key) with
  | none => none
  | some p => some p.2

/-- A response document as handed to `fromstring`: its root element, plus
whether the raw bytes contain a DTD entity declaration (the single feature
of the raw text that `defusedxml` inspects and `ElementTree` would expand). -/
structure XmlDocument : Type where
  root : XmlElement
  hasEntityDecl : Bool

/-- The Python exceptions raised by the code under verification. -/
inductive TSCError : Type where
  | UnpopulatedPropertyError (msg : String)
  | ValidationError (msg : String)
  | TypeError (msg : String)
  | ValueError (msg : String)
  | EntitiesForbidden
deriving Repr, DecidableEq

def TSCError.isTypeError : TSCError → Bool
  | .TypeError _ => true
  | _ => false

/-- Modelled from the spec: `defusedxml.ElementTree.fromstring` is not under
`src/` (the repository only imports it, line 5 of `project_item.py`).  Per the
spec's security requirement — "the XML parser must reject external entity
expansion and other XML injection vectors" — it refuses any document carrying
an entity declaration instead of parsing (and possibly expanding) it. -/
def fromstring (doc : XmlDocument) : Except TSCError XmlElement :=
  if doc.hasEntityDecl then .error .EntitiesForbidden else .ok doc.root

mutual

/-- `element.findall(".//t:project", ns)` restricted to one element: the
`project`-tagged elements among `e` and all its descendants, in document
order.  (`descendantsProject` below excludes the root itself, as `.//` does.) -/
def collectProject : XmlElement → List XmlElement
  | .mk tag attrs children =>
      (if tag = "project" then [XmlElement.mk tag attrs children] else []) ++
        collectProjectList children

/-- `collectProject` mapped over a sibling list, concatenated in order. -/
def collectProjectList : List XmlElement → List XmlElement
  | [] => []
  | c :: cs => collectProject c ++ collectProjectList cs

end

/-- `root.findall(".//t:project", ns)`: all `project` descendants of the root
(the root itself is not matched by `.//`). -/
def descendantsProject (e : XmlElement) : List XmlElement :=
  collectProjectList e.children

/-- The class constant `ProjectItem.ContentPermissions`: the closed set of
content-permission modes. -/
def ContentPermissionsMembers : List String :=
  ["LockedToProject", "ManagedByOwner", "LockedToProjectWithoutNested"]

/-- `ProjectItem.ERROR_MSG`. -/
def ERROR_MSG : String := "Project item must be populated with permissions first."

/-- The `ProjectItem` object state.  `π` is the (arbitrary) result type of the
injected permission providers; a provider slot is `none` until the endpoint
layer populates it. -/
structure ProjectItem (π : Type) : Type where
  _id : Option String
  _name : Option String
  description : Option String
  _content_permissions : Option String
  parent_id : Option String
  _samples : Option Bool
  _owner_id : Option String
  _permissions : Option (Unit → π)
  _default_workbook_permissions : Option (Unit → π)
  _default_datasource_permissions : Option (Unit → π)
  _default_flow_permissions : Option (Unit → π)
  _default_lens_permissions : Option (Unit → π)
  _default_datarole_permissions : Option (Unit → π)
  _default_metric_permissions : Option (Unit → π)
  _default_virtualconnection_permissions : Option (Unit → π)
  _default_database_permissions : Option (Unit → π)
  _default_table_permissions : Option (Unit → π)

/-- Modelled from the spec: the `property_is_enum` decorator (module
`tableauserverclient.models.property_decorators`) is not under `src/`.  Per
the spec, the guarded setter "fails with ValidationError unless value is one
of the closed enumeration {LockedToProject, ManagedByOwner,
LockedToProjectWithoutNested} or unset": the check passes exactly when the
value is `none` or a member of the enumeration. -/
def property_is_enum_check (value : Option String) : Bool :=
  match value with
  | none => true
  | some v => ContentPermissionsMembers.contains v

/-- The `content_permissions` setter (`@content_permissions.setter` guarded by
`@property_is_enum(ContentPermissions)`): on a failed check the decorator
raises before the wrapped setter body runs, so the returned object is the
original one; on success the body stores the value.  The second component is
the raised exception, if any. -/
def content_permissions_set {π : Type} (item : ProjectItem π) (value : Option String) :
    ProjectItem π × Option TSCError :=
  if property_is_enum_check value then
    ({ item with _content_permissions := value }, none)
  else
    (item, some (.ValidationError "content_permissions is not a ContentPermissions member"))

/-- The `content_permissions` getter. -/
def content_permissions_get {π : Type} (item : ProjectItem π) : Option String :=
  item._content_permissions

/-- The object produced by `ProjectItem()` before any field assignment: every
slot unset.  (`__init__` then runs the assignments modelled in
`ProjectItem.init`.) -/
def ProjectItem.blank (π : Type) : ProjectItem π where
  _id := none
  _name := none
  description := none
  _content_permissions := none
  parent_id := none
  _samples := none
  _owner_id := none
  _permissions := none
  _default_workbook_permissions := none
  _default_datasource_permissions := none
  _default_flow_permissions := none
  _default_lens_permissions := none
  _default_datarole_permissions := none
  _default_metric_permissions := none
  _default_virtualconnection_permissions := none
  _default_database_permissions := none
  _default_table_permissions := none

/-- `ProjectItem.__init__`: stores description and name, assigns
`content_permissions` through the validating setter (whose exception, if any,
propagates out of the constructor), then stores parent id and the samples
flag.  All other slots start unset. -/
def ProjectItem.init (π : Type) (name description content_permissions parent_id : Option String)
    (samples : Option Bool) : Except TSCError (ProjectItem π) :=
  let item0 := { ProjectItem.blank π with description := description, _name := name }
  match content_permissions_set item0 content_permissions with
  | (_, some e) => .error e
  | (item1, none) => .ok { item1 with parent_id := parent_id, _samples := samples }

/-- Python truthiness of an `Optional[str]`: `None` and `""` are falsy. -/
def truthy : Option String → Bool
  | none => false
  | some s => !s.isEmpty

/-- `ProjectItem._set_values`: the value merge.  Note the asymmetry in the
source: `project_id` is guarded by `is not None` while the five remaining
fields are guarded by truthiness. -/
def ProjectItem._set_values {π : Type} (item : ProjectItem π)
    (project_id name description content_permissions parent_id owner_id : Option String) :
    ProjectItem π :=
  let item := if project_id.isSome then { item with _id := project_id } else item
  let item := if truthy name then { item with _name := name } else item
  let item := if truthy description then { item with description := description } else item
  let item := if truthy content_permissions then
      { item with _content_permissions := content_permissions } else item
  let item := if truthy parent_id then { item with parent_id := parent_id } else item
  if truthy owner_id then { item with _owner_id := owner_id } else item

/-- `ProjectItem._parse_element`: reads the five attributes, then loops over
the immediate children rebinding `owner_id = owner.get("id", None)` on each
iteration — so the value left behind is the last child's lookup. -/
def ProjectItem._parse_element (project_xml : XmlElement) :
    Option String × Option String × Option String × Option String × Option String ×
      Option String :=
  let id := project_xml.get "id"
  let name := project_xml.get "name"
  let description := project_xml.get "description"
  let content_permissions := project_xml.get "contentPermissions"
  let parent_id := project_xml.get "parentProjectId"
  let owner_id := project_xml.children.foldl (fun _ owner => owner.get "id") none
  (id, name, description, content_permissions, parent_id, owner_id)

/-- `ProjectItem.from_xml`: builds a bare item (`cls()`, which cannot fail
since every constructor argument defaults to `None`) and merges the parsed
element via `_set_values`. -/
def ProjectItem.from_xml (π : Type) (project_xml : XmlElement) : ProjectItem π :=
  let p := ProjectItem._parse_element project_xml
  ProjectItem._set_values (ProjectItem.blank π) p.1 p.2.1 p.2.2.1 p.2.2.2.1 p.2.2.2.2.1
    p.2.2.2.2.2

/-- `ProjectItem.from_response`: parse the body, find every `project`
descendant, build one item per match in document order. -/
def ProjectItem.from_response (π : Type) (resp : XmlDocument) :
    Except TSCError (List (ProjectItem π)) :=
  match fromstring resp with
  | .error e => .error e
  | .ok parsed => .ok ((descendantsProject parsed).map (ProjectItem.from_xml π))

/-- Python `str.lower()` (over the ASCII range the code uses): lowercase
every character.  Defined over the character list so that it evaluates by
kernel reduction. -/
def pyLower (s : String) : String :=
  String.mk (s.data.map Char.toLower)

/-- `ProjectItem.is_default`: `self.name.lower() == "default"`.  `none`
models the `AttributeError` raised when `name` is `None`. -/
def ProjectItem.is_default {π : Type} (item : ProjectItem π) : Option Bool :=
  item._name.map (fun n => pyLower n == "default")

/-- The `permissions` property: raises `UnpopulatedPropertyError(ERROR_MSG)`
when the slot is unset, otherwise calls the stored provider. -/
def ProjectItem.permissions {π : Type} (item : ProjectItem π) : Except TSCError π :=
  match item._permissions with
  | none => .error (.UnpopulatedPropertyError ERROR_MSG)
  | some f => .ok (f ())

/-- The `default_workbook_permissions` property. -/
def ProjectItem.default_workbook_permissions {π : Type} (item : ProjectItem π) :
    Except TSCError π :=
  match item._default_workbook_permissions with
  | none => .error (.UnpopulatedPropertyError ERROR_MSG)
  | some f => .ok (f ())

/-- The `default_datasource_permissions` property. -/
def ProjectItem.default_datasource_permissions {π : Type} (item : ProjectItem π) :
    Except TSCError π :=
  match item._default_datasource_permissions with
  | none => .error (.UnpopulatedPropertyError ERROR_MSG)
  | some f => .ok (f ())

/-- The `default_flow_permissions` property. -/
def ProjectItem.default_flow_permissions {π : Type} (item : ProjectItem π) :
    Except TSCError π :=
  match item._default_flow_permissions with
  | none => .error (.UnpopulatedPropertyError ERROR_MSG)
  | some f => .ok (f ())

/-- The `default_lens_permissions` property. -/
def ProjectItem.default_lens_permissions {π : Type} (item : ProjectItem π) :
    Except TSCError π :=
  match item._default_lens_permissions with
  | none => .error (.UnpopulatedPropertyError ERROR_MSG)
  | some f => .ok (f ())

/-- The `default_datarole_permissions` property. -/
def ProjectItem.default_datarole_permissions {π : Type} (item : ProjectItem π) :
    Except TSCError π :=
  match item._default_datarole_permissions with
  | none => .error (.UnpopulatedPropertyError ERROR_MSG)
  | some f => .ok (f ())

/-- The `default_metric_permissions` property. -/
def ProjectItem.default_metric_permissions {π : Type} (item : ProjectItem π) :
    Except TSCError π :=
  match item._default_metric_permissions with
  | none => .error (.UnpopulatedPropertyError ERROR_MSG)
  | some f => .ok (f ())

/-- The `default_virtualconnection_permissions` property. -/
def ProjectItem.default_virtualconnection_permissions {π : Type} (item : ProjectItem π) :
    Except TSCError π :=
  match item._default_virtualconnection_permissions with
  | none => .error (.UnpopulatedPropertyError ERROR_MSG)
  | some f => .ok (f ())

/-- The `default_database_permissions` property. -/
def ProjectItem.default_database_permissions {π : Type} (item : ProjectItem π) :
    Except TSCError π :=
  match item._default_database_permissions with
  | none => .error (.UnpopulatedPropertyError ERROR_MSG)
  | some f => .ok (f ())

/-- The `default_table_permissions` property. -/
def ProjectItem.default_table_permissions {π : Type} (item : ProjectItem π) :
    Except TSCError π :=
  match item._default_table_permissions with
  | none => .error (.UnpopulatedPropertyError ERROR_MSG)
  | some f => .ok (f ())

/-- `ProjectItem._set_permissions`. -/
def ProjectItem._set_permissions {π : Type} (item : ProjectItem π) (p : Unit → π) :
    ProjectItem π :=
  { item with _permissions := some p }

/-- `ProjectItem._set_default_permissions`: computes the attribute name
`f"_default_{content_type}_permissions".lower()` and stores the provider
there via `setattr`.  A name matching none of the nine declared slots would
create a fresh attribute on the Python object, leaving every declared slot
unchanged — modelled as the identity on the record. -/
def ProjectItem._set_default_permissions {π : Type} (item : ProjectItem π)
    (p : Unit → π) (content_type : String) : ProjectItem π :=
  let attr := pyLower ("_default_" ++ content_type ++ "_permissions")
  if attr = "_default_workbook_permissions" then
    { item with _default_workbook_permissions := some p }
  else if attr = "_default_datasource_permissions" then
    { item with _default_datasource_permissions := some p }
  else if attr = "_default_flow_permissions" then
    { item with _default_flow_permissions := some p }
  else if attr = "_default_lens_permissions" then
    { item with _default_lens_permissions := some p }
  else if attr = "_default_datarole_permissions" then
    { item with _default_datarole_permissions := some p }
  else if attr = "_default_metric_permissions" then
    { item with _default_metric_permissions := some p }
  else if attr = "_default_virtualconnection_permissions" then
    { item with _default_virtualconnection_permissions := some p }
  else if attr = "_default_database_permissions" then
    { item with _default_database_permissions := some p }
  else if attr = "_default_table_permissions" then
    { item with _default_table_permissions := some p }
  else item

/-- The six components of `_parse_element`'s return tuple, as a list: Python
tuple unpacking distributes a sequence of this length over the assignment
targets. -/
def parseElementList (project_xml : XmlElement) : List (Option String) :=
  let p := ProjectItem._parse_element project_xml
  [p.1, p.2.1, p.2.2.1, p.2.2.2.1, p.2.2.2.2.1, p.2.2.2.2.2]

/-- Python unpacking of a sequence into five assignment targets: succeeds
only on a five-element sequence, otherwise raises
`ValueError: too many values to unpack (expected 5)` (or the too-few variant,
raised with the same exception class). -/
def unpackFive (l : List (Option String)) :
    Except TSCError
      (Option String × Option String × Option String × Option String × Option String) :=
  match l with
  | [a, b, c, d, e] => .ok (a, b, c, d, e)
  | _ => .error (.ValueError "too many values to unpack (expected 5)")

/-- The argument to `_parse_common_tags`: either an already-parsed element
(the `isinstance(project_xml, ET.Element)` branch) or raw response bytes. -/
def CommonTagsInput : Type := Sum XmlElement XmlDocument

/-- Whether `_parse_common_tags` reaches its `project_xml is not None`
branch: always for an element argument; for raw bytes, when parsing succeeds
and the document holds at least one `project` descendant. -/
def parseFindsProject : CommonTagsInput → Bool
  | .inl _ => true
  | .inr doc => !doc.hasEntityDecl && !(descendantsProject doc.root).isEmpty

/-- `ProjectItem._parse_common_tags`: for a non-element argument, parse it and
take the first `project` descendant (`find`).  When an element was found,
destructure the six-tuple returned by `_parse_element` into five targets —
which raises `ValueError` in Python.  Were the unpacking to succeed, the next
line calls the six-parameter `_set_values` with five positional arguments,
which raises `TypeError`; that line is unreachable. -/
def ProjectItem._parse_common_tags {π : Type} (item : ProjectItem π)
    (input : CommonTagsInput) : Except TSCError (ProjectItem π) :=
  let found : Except TSCError (Option XmlElement) :=
    match input with
    | .inl e => .ok (some e)
    | .inr doc =>
        match fromstring doc with
        | .error err => .error err
        | .ok root => .ok ((descendantsProject root).head?)
  match found with
  | .error err => .error err
  | .ok none => .ok item
  | .ok (some project_xml) =>
      match unpackFive (parseElementList project_xml) with
      | .error err => .error err
      | .ok (_, _name, _description, _content_permissions, _parent_id) =>
          .error (.TypeError
            "_set_values() missing 1 required positional argument: owner_id")

/-- Written from the SPEC's words, for comparison with the code (claim C1):
"owner id discovered by scanning the element's immediate children for an
\x22id\x22 attribute (first found child wins)". -/
def ownerIdSpec (project_xml : XmlElement) : Option String :=
  match project_xml.children.find? (fun c => (c.get "id").isSome) with
  | none => none
  | some c => c.get "id"

/-- The invariant of claim C2, in the spec's words: the stored
content-permission mode is unset or a member of the closed set. -/
def contentPermissionInvariant {π : Type} (item : ProjectItem π) : Prop :=
  item._content_permissions = none ∨
    item._content_permissions ∈ ContentPermissionsMembers.map some

/-- Attribute values as `_set_values` lands them on a bare item: a present
non-empty attribute is kept, an absent or empty one leaves `None`. -/
def normEmptyAttr (a : Option String) : Option String :=
  if truthy a then a else none

/-! ## Shared lemmas -/

/-- The owner loop of `_parse_element` rebinds its variable on every child:
the fold is determined by the last child alone. -/
lemma foldl_owner_eq_getLast (l : List XmlElement) (init : Option String) :
    l.foldl (fun _ owner => owner.get "id") init =
      (match l.getLast? with
       | none => init
       | some c => c.get "id") := by
  induction l generalizing init with
  | nil => rfl
  | cons c cs ih =>
    rw [List.foldl_cons, ih]
    cases cs with
    | nil => rfl
    | cons d ds => rfl

/-- Field-by-field characterization of `_set_values`: `_id` is overwritten
whenever the incoming id is non-null, the five truthiness-guarded fields are
overwritten exactly when the incoming value is non-empty, and every other
slot of the record is untouched. -/
lemma set_values_spec (π : Type) (item : ProjectItem π)
    (i n d c p o : Option String) :
    (ProjectItem._set_values item i n d c p o)._id =
        (if i.isSome then i else item._id) ∧
      (ProjectItem._set_values item i n d c p o)._name =
        (if truthy n then n else item._name) ∧
      (ProjectItem._set_values item i n d c p o).description =
        (if truthy d then d else item.description) ∧
      (ProjectItem._set_values item i n d c p o)._content_permissions =
        (if truthy c then c else item._content_permissions) ∧
      (ProjectItem._set_values item i n d c p o).parent_id =
        (if truthy p then p else item.parent_id) ∧
      (ProjectItem._set_values item i n d c p o)._owner_id =
        (if truthy o then o else item._owner_id) ∧
      (ProjectItem._set_values item i n d c p o)._samples = item._samples ∧
      (ProjectItem._set_values item i n d c p o)._permissions = item._permissions ∧
      (ProjectItem._set_values item i n d c p o)._default_workbook_permissions =
        item._default_workbook_permissions ∧
      (ProjectItem._set_values item i n d c p o)._default_datasource_permissions =
        item._default_datasource_permissions ∧
      (ProjectItem._set_values item i n d c p o)._default_flow_permissions =
        item._default_flow_permissions ∧
      (ProjectItem._set_values item i n d c p o)._default_lens_permissions =
        item._default_lens_permissions ∧
      (ProjectItem._set_values item i n d c p o)._default_datarole_permissions =
        item._default_datarole_permissions ∧
      (ProjectItem._set_values item i n d c p o)._default_metric_permissions =
        item._default_metric_permissions ∧
      (ProjectItem._set_values item i n d c p o)._default_virtualconnection_permissions =
        item._default_virtualconnection_permissions ∧
      (ProjectItem._set_values item i n d c p o)._default_database_permissions =
        item._default_database_permissions ∧
      (ProjectItem._set_values item i n d c p o)._default_table_permissions =
        item._default_table_permissions := by
  cases hi : i.isSome <;> cases hn : truthy n <;> cases hd : truthy d <;>
    cases hc : truthy c <;> cases hp : truthy p <;> cases ho : truthy o <;>
    simp [ProjectItem._set_values, hi, hn, hd, hc, hp, ho]

/-- The fields of an item built by `from_xml`, in terms of the source
element's attributes. -/
lemma from_xml_fields (π : Type) (e : XmlElement) :
    (ProjectItem.from_xml π e)._id = e.get "id" ∧
      (ProjectItem.from_xml π e)._name = normEmptyAttr (e.get "name") ∧
      (ProjectItem.from_xml π e).description = normEmptyAttr (e.get "description") ∧
      (ProjectItem.from_xml π e)._content_permissions =
        normEmptyAttr (e.get "contentPermissions") ∧
      (ProjectItem.from_xml π e).parent_id = normEmptyAttr (e.get "parentProjectId") := by
  have h := set_values_spec π (ProjectItem.blank π) (e.get "id") (e.get "name")
    (e.get "description") (e.get "contentPermissions") (e.get "parentProjectId")
    (e.children.foldl (fun _ owner => owner.get "id") none)
  simp only [ProjectItem.from_xml, ProjectItem._parse_element]
  refine ⟨?_, ?_, ?_, ?_, ?_⟩
  · rw [h.1]
    cases hi : (e.get "id") <;> simp [ProjectItem.blank, hi]
  · rw [h.2.1]
    simp [normEmptyAttr, ProjectItem.blank]
  · rw [h.2.2.1]
    simp [normEmptyAttr, ProjectItem.blank]
  · rw [h.2.2.2.1]
    simp [normEmptyAttr, ProjectItem.blank]
  · rw [h.2.2.2.2.1]
    simp [normEmptyAttr, ProjectItem.blank]

/-- `property_is_enum_check` passes exactly on `none` and the members of the
closed enumeration. -/
lemma check_true_iff (v : Option String) :
    property_is_enum_check v = true ↔
      (v = none ∨ v ∈ ContentPermissionsMembers.map some) := by
  cases v with
  | none => simp [property_is_enum_check]
  | some s =>
    simp [property_is_enum_check, List.mem_map, ContentPermissionsMembers]

/-! ## Claims -/

/-- C1: the claim says the owner id extracted by `_parse_element` is the id
of the FIRST immediate child carrying an "id" attribute.  Counterexample: on
a project element with two owner children carrying ids "first-owner" and
"last-owner", the code returns the last child's id, not the first's. -/
theorem C1_counterexample :
    (ProjectItem._parse_element
          (XmlElement.mk "project" [("id", "p0")]
            [XmlElement.mk "owner" [("id", "first-owner")] [],
              XmlElement.mk "owner" [("id", "last-owner")] []])).2.2.2.2.2 =
        some "last-owner" ∧
      ownerIdSpec
          (XmlElement.mk "project" [("id", "p0")]
            [XmlElement.mk "owner" [("id", "first-owner")] [],
              XmlElement.mk "owner" [("id", "last-owner")] []]) =
        some "first-owner" ∧
      (some "last-owner" : Option String) ≠ some "first-owner" := by
  refine ⟨rfl, rfl, by decide⟩

/-- C1 (amended): the owner id extracted by `_parse_element` is the id
attribute of the LAST immediate child element (`none` when that child has no
id attribute, even if an earlier child has one), and `none` when the element
has no children. -/
theorem C1_amended (e : XmlElement) :
    (ProjectItem._parse_element e).2.2.2.2.2 =
      (match e.children.getLast? with
       | none => none
       | some c => c.get "id") := by
  simp only [ProjectItem._parse_element]
  exact foldl_owner_eq_getLast e.children none

/-- C2: the claim says no operation (including `from_xml`) can leave a
content-permission value outside the closed set.  Counterexample: `from_xml`
on an element with `contentPermissions="Bogus"` stores "Bogus" unvalidated,
because `_set_values` writes the private slot directly. -/
theorem C2_counterexample :
    (ProjectItem.from_xml Unit
          (XmlElement.mk "project" [("contentPermissions", "Bogus")] []))._content_permissions =
        some "Bogus" ∧
      ContentPermissionsMembers.contains "Bogus" = false ∧
      ¬ contentPermissionInvariant
          (ProjectItem.from_xml Unit
            (XmlElement.mk "project" [("contentPermissions", "Bogus")] [])) := by
  refine ⟨rfl, by decide, ?_⟩
  unfold contentPermissionInvariant
  decide

/-- C2 (amended): the closed-set invariant on the stored content-permission
mode is established by construction (`__init__` routes the value through the
validating setter) and preserved by the `content_permissions` setter; it is
NOT preserved by `_set_values` / `from_xml` / `from_response`, which store
the parsed string unvalidated (see the counterexample). -/
theorem C2_amended :
    (∀ (n d cp pid : Option String) (s : Option Bool) (item : ProjectItem Unit),
        ProjectItem.init Unit n d cp pid s = .ok item →
          contentPermissionInvariant item) ∧
      ∀ (item : ProjectItem Unit) (v : Option String),
        contentPermissionInvariant item →
          contentPermissionInvariant (content_permissions_set item v).1 := by
  constructor
  · intro n d cp pid s item h
    by_cases hc : property_is_enum_check cp = true
    · simp [ProjectItem.init, content_permissions_set, hc] at h
      subst h
      unfold contentPermissionInvariant
      simpa using (check_true_iff cp).mp hc
    · simp [ProjectItem.init, content_permissions_set, hc] at h
  · intro item v hinv
    unfold content_permissions_set
    by_cases hc : property_is_enum_check v = true
    · rw [if_pos hc]
      rcases (check_true_iff v).mp hc with h1 | h1
      · exact Or.inl h1
      · exact Or.inr h1
    · rw [if_neg hc]
      exact hinv

/-- Witness for C2 (amended): applied to concrete inputs. -/
theorem C2_amended_witness :
    contentPermissionInvariant
        (content_permissions_set (ProjectItem.blank Unit) (some "LockedToProject")).1 :=
  C2_amended.2 (ProjectItem.blank Unit) (some "LockedToProject") (Or.inl rfl)

/-- C3: assigning `v` to `content_permissions` raises a validation error iff
`v` is neither `None` nor a member of the closed set; a member or `None` is
stored and returned unchanged by the getter (the failed assignment leaves the
getter's value untouched). -/
theorem C3_setter_validation (item : ProjectItem Unit) (v : Option String) :
    ((v = none ∨ v ∈ ContentPermissionsMembers.map some) →
        content_permissions_set item v = ({ item with _content_permissions := v }, none) ∧
          content_permissions_get (content_permissions_set item v).1 = v) ∧
      (¬(v = none ∨ v ∈ ContentPermissionsMembers.map some) →
        content_permissions_set item v =
            (item,
              some (.ValidationError
                "content_permissions is not a ContentPermissions member")) ∧
          content_permissions_get (content_permissions_set item v).1 =
            content_permissions_get item) := by
  constructor
  · intro hmem
    have hc : property_is_enum_check v = true := (check_true_iff v).mpr hmem
    unfold content_permissions_set
    rw [if_pos hc]
    exact ⟨rfl, rfl⟩
  · intro hmem
    have hc : ¬ property_is_enum_check v = true := fun h => hmem ((check_true_iff v).mp h)
    unfold content_permissions_set
    rw [if_neg hc]
    exact ⟨rfl, rfl⟩

/-- Witness for C3: a member value is stored and read back; a non-member
value raises the validation error. -/
theorem C3_witness :
    content_permissions_get
        (content_permissions_set (ProjectItem.blank Unit) (some "ManagedByOwner")).1 =
      some "ManagedByOwner" ∧
      content_permissions_set (ProjectItem.blank Unit) (some "Bogus") =
        (ProjectItem.blank Unit,
          some (.ValidationError "content_permissions is not a ContentPermissions member")) :=
  ⟨((C3_setter_validation (ProjectItem.blank Unit) (some "ManagedByOwner")).1
      (by decide)).2,
    ((C3_setter_validation (ProjectItem.blank Unit) (some "Bogus")).2 (by decide)).1⟩

/-- C4: the claim says every field whose incoming value is absent OR EMPTY is
left at its prior value.  Counterexample: the id slot is guarded by
`is not None`, so an incoming empty-string id overwrites an existing id. -/
theorem C4_counterexample :
    (ProjectItem._set_values { ProjectItem.blank Unit with _id := some "X" }
          (some "") none none none none none)._id = some "" ∧
      ({ ProjectItem.blank Unit with _id := some "X" } : ProjectItem Unit)._id =
        some "X" ∧
      (some "" : Option String) ≠ some "X" :=
  ⟨rfl, rfl, by decide⟩

/-- C4 (amended): `_set_values` overwrites the id slot whenever the incoming
id is non-null (an incoming empty-string id overwrites), overwrites each of
name, description, content-permission mode, parent id and owner id exactly
when the incoming value is non-empty, and leaves every other slot of the
item untouched. -/
theorem C4_amended (π : Type) (item : ProjectItem π) (i n d c p o : Option String) :
    (ProjectItem._set_values item i n d c p o)._id =
        (if i.isSome then i else item._id) ∧
      (ProjectItem._set_values item i n d c p o)._name =
        (if truthy n then n else item._name) ∧
      (ProjectItem._set_values item i n d c p o).description =
        (if truthy d then d else item.description) ∧
      (ProjectItem._set_values item i n d c p o)._content_permissions =
        (if truthy c then c else item._content_permissions) ∧
      (ProjectItem._set_values item i n d c p o).parent_id =
        (if truthy p then p else item.parent_id) ∧
      (ProjectItem._set_values item i n d c p o)._owner_id =
        (if truthy o then o else item._owner_id) ∧
      (ProjectItem._set_values item i n d c p o)._samples = item._samples ∧
      (ProjectItem._set_values item i n d c p o)._permissions = item._permissions ∧
      (ProjectItem._set_values item i n d c p o)._default_workbook_permissions =
        item._default_workbook_permissions ∧
      (ProjectItem._set_values item i n d c p o)._default_datasource_permissions =
        item._default_datasource_permissions ∧
      (ProjectItem._set_values item i n d c p o)._default_flow_permissions =
        item._default_flow_permissions ∧
      (ProjectItem._set_values item i n d c p o)._default_lens_permissions =
        item._default_lens_permissions ∧
      (ProjectItem._set_values item i n d c p o)._default_datarole_permissions =
        item._default_datarole_permissions ∧
      (ProjectItem._set_values item i n d c p o)._default_metric_permissions =
        item._default_metric_permissions ∧
      (ProjectItem._set_values item i n d c p o)._default_virtualconnection_permissions =
        item._default_virtualconnection_permissions ∧
      (ProjectItem._set_values item i n d c p o)._default_database_permissions =
        item._default_database_permissions ∧
      (ProjectItem._set_values item i n d c p o)._default_table_permissions =
        item._default_table_permissions :=
  set_values_spec π item i n d c p o

/-- C5: each deferred permission accessor (the `permissions` property and the
nine `default_*_permissions` properties) raises `UnpopulatedPropertyError`
exactly when its provider slot is unset, and after the corresponding
population call (`_set_permissions` / `_set_default_permissions`) injects a
provider, the accessor returns exactly the provider's result. -/
theorem C5_deferred_accessors (π : Type) (item : ProjectItem π) :
    (item.permissions = .error (.UnpopulatedPropertyError ERROR_MSG) ↔
        item._permissions = none) ∧
      (∀ f : Unit → π, (item._set_permissions f).permissions = .ok (f ())) ∧
      (item.default_workbook_permissions = .error (.UnpopulatedPropertyError ERROR_MSG) ↔
        item._default_workbook_permissions = none) ∧
      (∀ f : Unit → π,
        (item._set_default_permissions f "workbook").default_workbook_permissions =
          .ok (f ())) ∧
      (item.default_datasource_permissions = .error (.UnpopulatedPropertyError ERROR_MSG) ↔
        item._default_datasource_permissions = none) ∧
      (∀ f : Unit → π,
        (item._set_default_permissions f "datasource").default_datasource_permissions =
          .ok (f ())) ∧
      (item.default_flow_permissions = .error (.UnpopulatedPropertyError ERROR_MSG) ↔
        item._default_flow_permissions = none) ∧
      (∀ f : Unit → π,
        (item._set_default_permissions f "flow").default_flow_permissions = .ok (f ())) ∧
      (item.default_lens_permissions = .error (.UnpopulatedPropertyError ERROR_MSG) ↔
        item._default_lens_permissions = none) ∧
      (∀ f : Unit → π,
        (item._set_default_permissions f "lens").default_lens_permissions = .ok (f ())) ∧
      (item.default_datarole_permissions = .error (.UnpopulatedPropertyError ERROR_MSG) ↔
        item._default_datarole_permissions = none) ∧
      (∀ f : Unit → π,
        (item._set_default_permissions f "datarole").default_datarole_permissions =
          .ok (f ())) ∧
      (item.default_metric_permissions = .error (.UnpopulatedPropertyError ERROR_MSG) ↔
        item._default_metric_permissions = none) ∧
      (∀ f : Unit → π,
        (item._set_default_permissions f "metric").default_metric_permissions =
          .ok (f ())) ∧
      (item.default_virtualconnection_permissions =
          .error (.UnpopulatedPropertyError ERROR_MSG) ↔
        item._default_virtualconnection_permissions = none) ∧
      (∀ f : Unit → π,
        (item._set_default_permissions f
            "virtualconnection").default_virtualconnection_permissions = .ok (f ())) ∧
      (item.default_database_permissions = .error (.UnpopulatedPropertyError ERROR_MSG) ↔
        item._default_database_permissions = none) ∧
      (∀ f : Unit → π,
        (item._set_default_permissions f "database").default_database_permissions =
          .ok (f ())) ∧
      (item.default_table_permissions = .error (.UnpopulatedPropertyError ERROR_MSG) ↔
        item._default_table_permissions = none) ∧
      ∀ f : Unit → π,
        (item._set_default_permissions f "table").default_table_permissions = .ok (f ()) := by
  refine ⟨?_, ?_, ?_, ?_, ?_, ?_, ?_, ?_, ?_, ?_, ?_, ?_, ?_, ?_, ?_, ?_, ?_, ?_, ?_, ?_⟩
  · cases h : item._permissions <;> simp [ProjectItem.permissions, h]
  · intro f
    rfl
  · cases h : item._default_workbook_permissions <;>
      simp [ProjectItem.default_workbook_permissions, h]
  · intro f
    rfl
  · cases h : item._default_datasource_permissions <;>
      simp [ProjectItem.default_datasource_permissions, h]
  · intro f
    rfl
  · cases h : item._default_flow_permissions <;>
      simp [ProjectItem.default_flow_permissions, h]
  · intro f
    rfl
  · cases h : item._default_lens_permissions <;>
      simp [ProjectItem.default_lens_permissions, h]
  · intro f
    rfl
  · cases h : item._default_datarole_permissions <;>
      simp [ProjectItem.default_datarole_permissions, h]
  · intro f
    rfl
  · cases h : item._default_metric_permissions <;>
      simp [ProjectItem.default_metric_permissions, h]
  · intro f
    rfl
  · cases h : item._default_virtualconnection_permissions <;>
      simp [ProjectItem.default_virtualconnection_permissions, h]
  · intro f
    rfl
  · cases h : item._default_database_permissions <;>
      simp [ProjectItem.default_database_permissions, h]
  · intro f
    rfl
  · cases h : item._default_table_permissions <;>
      simp [ProjectItem.default_table_permissions, h]
  · intro f
    rfl

/-- C6: the claim says each parsed item's fields equal the source element's
attributes, absent attributes yielding None.  Counterexample: a present but
EMPTY attribute (`description=""`) is also dropped to None by the
truthiness-guarded merge, so the field does not equal the attribute. -/
theorem C6_counterexample :
    ProjectItem.from_response Unit
        ⟨XmlElement.mk "tsResponse" []
            [XmlElement.mk "project" [("id", "p1"), ("description", "")] []],
          false⟩ =
        .ok [ProjectItem.from_xml Unit
            (XmlElement.mk "project" [("id", "p1"), ("description", "")] [])] ∧
      (ProjectItem.from_xml Unit
          (XmlElement.mk "project" [("id", "p1"), ("description", "")] [])).description =
        none ∧
      (XmlElement.mk "project" [("id", "p1"), ("description", "")] []).get
          "description" = some "" ∧
      (none : Option String) ≠ some "" :=
  ⟨rfl, rfl, rfl, by decide⟩

/-- C6 (amended): `from_response` on an entity-free document returns one item
per `project` descendant of the root, in document order; each item's id
equals the element's id attribute (even when empty), while name, description,
content-permission mode and parent id equal the corresponding attribute when
it is present and non-empty, and are None when it is absent or empty. -/
theorem C6_amended (resp : XmlDocument) (h : resp.hasEntityDecl = false) :
    ProjectItem.from_response Unit resp =
        .ok ((descendantsProject resp.root).map (ProjectItem.from_xml Unit)) ∧
      ((descendantsProject resp.root).map (ProjectItem.from_xml Unit)).length =
        (descendantsProject resp.root).length ∧
      ∀ e : XmlElement,
        (ProjectItem.from_xml Unit e)._id = e.get "id" ∧
          (ProjectItem.from_xml Unit e)._name = normEmptyAttr (e.get "name") ∧
          (ProjectItem.from_xml Unit e).description =
            normEmptyAttr (e.get "description") ∧
          (ProjectItem.from_xml Unit e)._content_permissions =
            normEmptyAttr (e.get "contentPermissions") ∧
          (ProjectItem.from_xml Unit e).parent_id =
            normEmptyAttr (e.get "parentProjectId") := by
  refine ⟨?_, List.length_map _ _, fun e => from_xml_fields Unit e⟩
  simp [ProjectItem.from_response, fromstring, h]

/-- Witness for C6 (amended): a concrete two-project document. -/
theorem C6_witness :
    ProjectItem.from_response Unit
        ⟨XmlElement.mk "tsResponse" []
            [XmlElement.mk "projects" []
              [XmlElement.mk "project" [("id", "p1"), ("name", "alpha")] [],
                XmlElement.mk "project" [("id", "p2"), ("name", "beta")] []]],
          false⟩ =
      .ok ((descendantsProject
            (XmlElement.mk "tsResponse" []
              [XmlElement.mk "projects" []
                [XmlElement.mk "project" [("id", "p1"), ("name", "alpha")] [],
                  XmlElement.mk "project" [("id", "p2"), ("name", "beta")] []]])).map
          (ProjectItem.from_xml Unit)) :=
  (C6_amended
    ⟨XmlElement.mk "tsResponse" []
        [XmlElement.mk "projects" []
          [XmlElement.mk "project" [("id", "p1"), ("name", "alpha")] [],
            XmlElement.mk "project" [("id", "p2"), ("name", "beta")] []]],
      false⟩ rfl).1

/-- C7: `is_default()` returns true exactly when the item's name, lowercased,
is the string "default" (for an item whose name is set; a `None` name makes
`name.lower()` raise `AttributeError`, modelled as `none`). -/
theorem C7_is_default (π : Type) (item : ProjectItem π) (s : String)
    (h : item._name = some s) :
    (item.is_default = some true ↔ pyLower s = "default") ∧
      (item.is_default = some false ↔ pyLower s ≠ "default") := by
  have hd : item.is_default = some (pyLower s == "default") := by
    unfold ProjectItem.is_default
    rw [h]
    rfl
  rw [hd]
  constructor
  · simp [beq_iff_eq]
  · simp [beq_eq_false_iff_ne]

/-- Witness for C7: name "Default" gives true; name "default " (trailing
space) gives false. -/
theorem C7_witness :
    ({ ProjectItem.blank Unit with _name := some "Default" } :
        ProjectItem Unit).is_default = some true ∧
      ({ ProjectItem.blank Unit with _name := some "default " } :
        ProjectItem Unit).is_default = some false :=
  ⟨(C7_is_default Unit { ProjectItem.blank Unit with _name := some "Default" }
        "Default" rfl).1.mpr (by decide),
    (C7_is_default Unit { ProjectItem.blank Unit with _name := some "default " }
        "default " rfl).2.mpr (by decide)⟩

/-- C8: a failed `content_permissions` assignment raises the validation
error before applying any change: the returned object is exactly the
original one, every field included. -/
theorem C8_failed_assignment_atomic (π : Type) (item : ProjectItem π)
    (v : Option String) (h : property_is_enum_check v = false) :
    content_permissions_set item v =
      (item,
        some (.ValidationError
          "content_permissions is not a ContentPermissions member")) := by
  unfold content_permissions_set
  rw [if_neg]
  simp [h]

/-- Witness for C8: a concrete non-member value on a concrete item. -/
theorem C8_witness :
    content_permissions_set { ProjectItem.blank Unit with _id := some "p9" }
        (some "NotAMode") =
      ({ ProjectItem.blank Unit with _id := some "p9" },
        some (.ValidationError
          "content_permissions is not a ContentPermissions member")) :=
  C8_failed_assignment_atomic Unit { ProjectItem.blank Unit with _id := some "p9" }
    (some "NotAMode") (by decide)

/-- C9: a response document carrying an XML entity declaration is rejected
by the parser (modelled from defusedxml's contract): both `from_response` and
the raw-bytes path of `_parse_common_tags` surface the rejection instead of
resolving the entity. -/
theorem C9_entities_rejected (doc : XmlDocument) (item : ProjectItem Unit)
    (h : doc.hasEntityDecl = true) :
    ProjectItem.from_response Unit doc = .error .EntitiesForbidden ∧
      ProjectItem._parse_common_tags item (.inr doc) = .error .EntitiesForbidden := by
  constructor
  · simp [ProjectItem.from_response, fromstring, h]
  · simp [ProjectItem._parse_common_tags, fromstring, h]

/-- Witness for C9: a concrete document flagged as carrying an entity
declaration. -/
theorem C9_witness :
    ProjectItem.from_response Unit ⟨XmlElement.mk "tsResponse" [] [], true⟩ =
      .error .EntitiesForbidden :=
  (C9_entities_rejected ⟨XmlElement.mk "tsResponse" [] [], true⟩
    (ProjectItem.blank Unit) rfl).1

/-- C10: the claim says `_parse_common_tags` raises a TypeError at the
five-argument call to the six-parameter `_set_values`.  Counterexample: on a
found project element the failure is a ValueError raised one step earlier, at
the destructuring of the six-value tuple into five targets; the `_set_values`
call is never reached. -/
theorem C10_counterexample :
    ProjectItem._parse_common_tags (ProjectItem.blank Unit)
        (.inl (XmlElement.mk "project" [("id", "p1")] [])) =
      .error (.ValueError "too many values to unpack (expected 5)") ∧
      TSCError.isTypeError (.ValueError "too many values to unpack (expected 5)") =
        false :=
  ⟨rfl, rfl⟩

/-- C10 (amended): whenever `_parse_common_tags` finds a project element, it
raises `ValueError: too many values to unpack (expected 5)` at the tuple
destructuring — before `_set_values` is invoked, so no field is updated — and
therefore the partial-update path can never complete successfully on a
matching document. -/
theorem C10_amended (π : Type) (item : ProjectItem π) (input : CommonTagsInput)
    (h : parseFindsProject input = true) :
    ProjectItem._parse_common_tags item input =
      .error (.ValueError "too many values to unpack (expected 5)") := by
  cases input with
  | inl e => rfl
  | inr doc =>
    unfold parseFindsProject at h
    simp only [Bool.and_eq_true, Bool.not_eq_eq_eq_not, Bool.not_true] at h
    obtain ⟨h1, h2⟩ := h
    unfold ProjectItem._parse_common_tags
    simp only [fromstring]
    rw [if_neg (by simp [Bool.not_eq_true] at h1 ⊢; exact h1)]
    cases hd : (descendantsProject doc.root).head? with
    | none =>
      rw [List.head?_eq_none_iff] at hd
      rw [hd] at h2
      simp at h2
    | some e =>
      simp only [hd]
      rfl

/-- Witness for C10 (amended): a concrete element argument. -/
theorem C10_witness :
    ProjectItem._parse_common_tags (ProjectItem.blank Unit)
        (.inl (XmlElement.mk "project" [] [])) =
      .error (.ValueError "too many values to unpack (expected 5)") :=
  C10_amended Unit (ProjectItem.blank Unit)
    (.inl (XmlElement.mk "project" [] [])) rfl
